import Mathlib

/-!
# Verification of the display-sound-manager profile store and OS dispatch

Shallow embedding of `src/src-tauri/src/main.rs`.

Modelling conventions:
* `u32` fields are `Nat`, `i32` fields are `Int` (the store never does
  arithmetic on them, so no wrap-around can be observed).
* `f64` (`scale_factor`) is modelled by an exact rational `ℚ`: the store only
  copies the value around; serde_json round-trips every finite double exactly.
* The backing `profiles.json` file is modelled by the JSON document it
  contains (type `Json` below): `serde_json::to_string_pretty` followed by
  `serde_json::from_str` is the identity on the document, so the byte-level
  pretty-printer/parser pair is collapsed.
* `std::process::Command::output()` results are modelled as
  `Except String ProcOut`: `.error e` is a spawn failure (`Err(e)` in Rust),
  `.ok o` carries the exit status and captured streams.
* Process stdout that the code splits with `str::lines` is modelled as the
  resulting list of lines.
* Side effects (process spawns, file writes) are made explicit as a trace of
  `Effect`s returned alongside each result.
* Rust `str::trim` is `rustTrim` below (whitespace in the `Char.isWhitespace`
  sense; every string appearing in the claims is ASCII).
-/

/-- JSON documents, the contents of `profiles.json`.  Numbers are exact
rationals (see the module comment on `f64`). -/
inductive Json where
  | null : Json
  | bool (b : Bool) : Json
  | num (q : ℚ) : Json
  | str (s : String) : Json
  | arr (elems : List Json) : Json
  | obj (fields : List (String × Json)) : Json

/-- `struct DisplayInfo` (main.rs lines 30–41). -/
structure DisplayInfo where
  id : Nat
  name : String
  width : Nat
  height : Nat
  x : Int
  y : Int
  scale_factor : ℚ
  is_primary : Bool
  rotation : Nat
deriving DecidableEq

/-- `struct AudioDevice` (main.rs lines 43–49). -/
structure AudioDevice where
  id : String
  name : String
  is_default : Bool
  device_type : String
deriving DecidableEq

/-- `struct AudioSettings` (main.rs lines 51–57). -/
structure AudioSettings where
  output_device : Option String
  input_device : Option String
  output_volume : Nat
  input_volume : Nat
deriving DecidableEq

/-- `struct Profile` (main.rs lines 59–66). -/
structure Profile where
  id : String
  name : String
  displays : List DisplayInfo
  audio_settings : AudioSettings
  created_at : String
deriving DecidableEq

/-- Rust `str::trim`: drop whitespace from both ends.  Structural so that the
kernel can evaluate it on concrete strings. -/
def rustTrim (s : String) : String :=
  ⟨(((s.data.dropWhile Char.isWhitespace).reverse.dropWhile Char.isWhitespace).reverse)⟩

/-- Rust `str::is_empty` on the model of strings. -/
def rustIsEmpty (s : String) : Bool :=
  s.data.isEmpty

/-- Captured result of a finished external process (`std::process::Output`):
exit-status success flag and the two streams. -/
structure ProcOut where
  status_success : Bool
  stdout_lines : List String
  stderr : String
deriving DecidableEq

/-- `Command::output()`: `.error e` models `Err(e)` (the process could not be
spawned), `.ok o` models `Ok(output)`. -/
abbrev SpawnResult := Except String ProcOut

/-- One observable side effect of a command handler. -/
inductive Effect where
  | spawn (cmd : String) (args : List String) : Effect
  | writeFile (content : Json) : Effect

/-! ## The profile store (main.rs lines 379–445)

`save_profile` / `delete_profile` first mutate the locked in-memory
`Vec<Profile>` and then call `AppState::save_profiles`; the outcome of that
persistence step (file system write) is passed in as `persist`.  Each handler
returns the in-memory collection after the call together with its
`Result<(), String>`. -/

/-- The in-memory mutation done by `save_profile` (main.rs lines 387–391):
`profiles.iter().position(|p| p.id == profile.id)` followed by
`profiles[pos] = profile` on a hit and `profiles.push(profile)` on a miss. -/
def upsert (profiles : List Profile) (profile : Profile) : List Profile :=
  match profiles.findIdx? (fun p => p.id == profile.id) with
  | some pos => profiles.set pos profile
  | none => profiles ++ [profile]

/-- `save_profile` (main.rs lines 381–397): upsert into the in-memory
collection, then persist; `state.save_profiles(&profiles)?` propagates a
persistence error while the mutation stays. -/
def save_profile (profiles : List Profile) (profile : Profile)
    (persist : List Profile → Except String Unit) :
    List Profile × Except String Unit :=
  let profiles' := upsert profiles profile
  match persist profiles' with
  | .error e => (profiles', .error e)
  | .ok _ => (profiles', .ok ())

/-- The in-memory mutation done by `delete_profile` (main.rs line 418):
`profiles.retain(|p| p.id != profile_id)`. -/
def retainOthers (profiles : List Profile) (profile_id : String) : List Profile :=
  profiles.filter (fun p => p.id != profile_id)

/-- `delete_profile` (main.rs lines 413–424): retain the non-matching
records, then persist. -/
def delete_profile (profiles : List Profile) (profile_id : String)
    (persist : List Profile → Except String Unit) :
    List Profile × Except String Unit :=
  let profiles' := retainOthers profiles profile_id
  match persist profiles' with
  | .error e => (profiles', .error e)
  | .ok _ => (profiles', .ok ())

/-- `apply_profile` (main.rs lines 428–445): look the profile up with
`profiles.iter().find(|p| p.id == profile_id)`; on a hit run the display step
then the audio step (each returns its result and its effect trace), on a miss
fail.  The handler holds the lock read-only: it returns no new collection and
performs no file write, so the returned trace is the complete set of side
effects. -/
def apply_profile (profiles : List Profile) (profile_id : String)
    (applyDisplay : List DisplayInfo → Except String Unit × List Effect)
    (applyAudio : AudioSettings → Except String Unit × List Effect) :
    Except String Unit × List Effect :=
  match profiles.find? (fun p => p.id == profile_id) with
  | some profile =>
    match applyDisplay profile.displays with
    | (.error e, tr) => (.error e, tr)
    | (.ok _, tr₁) =>
      match applyAudio profile.audio_settings with
      | (.error e, tr₂) => (.error e, tr₁ ++ tr₂)
      | (.ok _, tr₂) => (.ok (), tr₁ ++ tr₂)
  | none => (.error "프로필을 찾을 수 없습니다.", [])

/-! ## Audio device enumeration and audio apply (main.rs lines 271–313, 529–594) -/

/-- The synthetic input device appended unconditionally
(main.rs lines 305–310). -/
def defaultInputDevice : AudioDevice :=
  { id := "default_input", name := "기본 입력 장치", is_default := true,
    device_type := "input" }

/-- The synthetic output device used when `SwitchAudioSource` cannot be
spawned (main.rs lines 295–300). -/
def fallbackOutputDevice : AudioDevice :=
  { id := "default_output", name := "기본 출력 장치", is_default := true,
    device_type := "output" }

/-- The device built from one non-blank stdout line
(main.rs lines 284–289). -/
def deviceOfLine (line : String) : AudioDevice :=
  { id := rustTrim line, name := rustTrim line, is_default := false,
    device_type := "output" }

/-- The `for line in output_str.lines()` loop of `get_audio_devices_macos`
(main.rs lines 282–291), pushing one device per non-blank line onto `devices`
in order. -/
def collectDevices (acc : List AudioDevice) (lines : List String) : List AudioDevice :=
  lines.foldl
    (fun devices line =>
      if rustIsEmpty (rustTrim line) then devices else devices ++ [deviceOfLine line])
    acc

/-- `get_audio_devices_macos` (main.rs lines 272–313).  `sas` is the result of
spawning `SwitchAudioSource -a`. -/
def get_audio_devices_macos (sas : Except String (List String)) :
    Except String (List AudioDevice) :=
  let devices :=
    match sas with
    | .ok lines => collectDevices [] lines
    | .error _ => [fallbackOutputDevice]
  .ok (devices ++ [defaultInputDevice])

/-- `apply_audio_settings_macos` (main.rs lines 530–553).  `sas` is the result
of spawning `SwitchAudioSource -s <output_device>`; it is only consulted (and
the process only spawned) when an output device is specified.  Input device
and volumes are unimplemented no-ops. -/
def apply_audio_settings_macos (audio_settings : AudioSettings)
    (sas : SpawnResult) : Except String Unit × List Effect :=
  match audio_settings.output_device with
  | none => (.ok (), [])
  | some output_device =>
    let tr := [Effect.spawn "SwitchAudioSource" ["-s", output_device]]
    match sas with
    | .ok output =>
      if output.status_success then (.ok (), tr)
      else (.error ("오디오 출력 장치 설정 실패: " ++ output.stderr), tr)
    | .error e =>
      (.error ("SwitchAudioSource 실행 실패: " ++ e ++
        ". SwitchAudioSource가 설치되어 있는지 확인하세요."), tr)

/-- `apply_audio_settings_windows` (main.rs lines 556–594).  `nircmd` is the
result of spawning `nircmd setdefaultsounddevice <dev>`; `powershell` the
result of the `Set-AudioDevice` fallback, consulted only when nircmd spawned
but exited unsuccessfully.  Every failure is only logged as a warning and the
function returns `Ok(())` on all paths. -/
def apply_audio_settings_windows (audio_settings : AudioSettings)
    (nircmd : SpawnResult) (powershell : SpawnResult) :
    Except String Unit × List Effect :=
  match audio_settings.output_device with
  | none => (.ok (), [])
  | some output_device =>
    let nircmdSpawn := Effect.spawn "nircmd" ["setdefaultsounddevice", output_device]
    match nircmd with
    | .ok output =>
      if output.status_success then (.ok (), [nircmdSpawn])
      else
        let psSpawn := Effect.spawn "powershell"
          ["-Command", "Set-AudioDevice -Name " ++ output_device]
        match powershell with
        | .ok _ => (.ok (), [nircmdSpawn, psSpawn])
        | .error _ => (.ok (), [nircmdSpawn, psSpawn])
    | .error _ => (.ok (), [nircmdSpawn])

/-! ## JSON (de)serialization of the store (main.rs lines 74–97)

`AppState::save_profiles` writes `serde_json::to_string_pretty(profiles)`;
`AppState::load_profiles` reads the file back and parses it with
`serde_json::from_str::<Vec<Profile>>`.  The serde-derived codecs for the
structs above are embedded here: encoding emits one object field per struct
field in declaration order; decoding looks fields up by name, accepts `null`
or a missing field for an `Option` field, and checks integrality for the
integer fields. -/

def u32ToJson (n : Nat) : Json := .num (n : ℚ)

def i32ToJson (i : Int) : Json := .num (i : ℚ)

def optStrToJson : Option String → Json
  | none => .null
  | some s => .str s

def displayInfoToJson (d : DisplayInfo) : Json :=
  .obj [("id", u32ToJson d.id), ("name", .str d.name),
        ("width", u32ToJson d.width), ("height", u32ToJson d.height),
        ("x", i32ToJson d.x), ("y", i32ToJson d.y),
        ("scale_factor", .num d.scale_factor),
        ("is_primary", .bool d.is_primary),
        ("rotation", u32ToJson d.rotation)]

def audioSettingsToJson (a : AudioSettings) : Json :=
  .obj [("output_device", optStrToJson a.output_device),
        ("input_device", optStrToJson a.input_device),
        ("output_volume", u32ToJson a.output_volume),
        ("input_volume", u32ToJson a.input_volume)]

def profileToJson (p : Profile) : Json :=
  .obj [("id", .str p.id), ("name", .str p.name),
        ("displays", .arr (p.displays.map displayInfoToJson)),
        ("audio_settings", audioSettingsToJson p.audio_settings),
        ("created_at", .str p.created_at)]

/-- The document `AppState::save_profiles` serializes and writes
(main.rs lines 92–94). -/
def profilesToJson (profiles : List Profile) : Json :=
  .arr (profiles.map profileToJson)

def jsonAsStr : Json → Option String
  | .str s => some s
  | _ => none

def jsonAsBool : Json → Option Bool
  | .bool b => some b
  | _ => none

def jsonAsU32 : Json → Option Nat
  | .num q => if q.den = 1 ∧ 0 ≤ q.num then some q.num.toNat else none
  | _ => none

def jsonAsI32 : Json → Option Int
  | .num q => if q.den = 1 then some q.num else none
  | _ => none

def jsonAsF64 : Json → Option ℚ
  | .num q => some q
  | _ => none

def jsonAsOptStr : Json → Option (Option String)
  | .null => some none
  | .str s => some (some s)
  | _ => none

/-- Field access in the serde-derived struct deserializers: look the field up
by name in the object. -/
def getField (fields : List (String × Json)) (key : String) : Option Json :=
  fields.lookup key

def displayInfoFromJson : Json → Option DisplayInfo
  | .obj fields => do
    let id ← (getField fields "id").bind jsonAsU32
    let name ← (getField fields "name").bind jsonAsStr
    let width ← (getField fields "width").bind jsonAsU32
    let height ← (getField fields "height").bind jsonAsU32
    let x ← (getField fields "x").bind jsonAsI32
    let y ← (getField fields "y").bind jsonAsI32
    let scale_factor ← (getField fields "scale_factor").bind jsonAsF64
    let is_primary ← (getField fields "is_primary").bind jsonAsBool
    let rotation ← (getField fields "rotation").bind jsonAsU32
    pure { id, name, width, height, x, y, scale_factor, is_primary, rotation }
  | _ => none

def audioSettingsFromJson : Json → Option AudioSettings
  | .obj fields => do
    let output_device ← (getField fields "output_device").bind jsonAsOptStr
    let input_device ← (getField fields "input_device").bind jsonAsOptStr
    let output_volume ← (getField fields "output_volume").bind jsonAsU32
    let input_volume ← (getField fields "input_volume").bind jsonAsU32
    pure { output_device, input_device, output_volume, input_volume }
  | _ => none

def profileFromJson : Json → Option Profile
  | .obj fields => do
    let id ← (getField fields "id").bind jsonAsStr
    let name ← (getField fields "name").bind jsonAsStr
    let displaysJson ← getField fields "displays"
    let displays ←
      match displaysJson with
      | .arr elems => elems.mapM displayInfoFromJson
      | _ => none
    let audioJson ← getField fields "audio_settings"
    let audio_settings ← audioSettingsFromJson audioJson
    let created_at ← (getField fields "created_at").bind jsonAsStr
    pure { id, name, displays, audio_settings, created_at }
  | _ => none

/-- The parse `serde_json::from_str::<Vec<Profile>>` performed by
`load_profiles` on the file content. -/
def profilesFromJson : Json → Option (List Profile)
  | .arr elems => elems.mapM profileFromJson
  | _ => none

/-- `AppState::load_profiles` (main.rs lines 74–84): `file` is the backing
file's state, `none` when the file does not exist, `some doc` when it holds
the document `doc`. -/
def load_profiles (file : Option Json) : Except String (List Profile) :=
  match file with
  | some content =>
    match profilesFromJson content with
    | some profiles => .ok profiles
    | none => .error "Failed to parse profiles"
  | none => .ok []

/-! ## Concrete sample data (used to instantiate the theorems below) -/

def dEx : DisplayInfo :=
  { id := 1, name := "Display 1", width := 1920, height := 1080, x := 0, y := 0,
    scale_factor := 1, is_primary := true, rotation := 0 }

def aEx : AudioSettings :=
  { output_device := some "Speakers", input_device := none,
    output_volume := 50, input_volume := 50 }

def pEx : Profile :=
  { id := "a", name := "Work", displays := [dEx], audio_settings := aEx,
    created_at := "2024-01-01" }

def pEx2 : Profile := { pEx with name := "Home" }

def pOther : Profile := { pEx with id := "b", name := "Other" }

/-! ## Helper lemmas about the store operations -/

theorem upsert_nil (p : Profile) : upsert [] p = [p] := rfl

theorem upsert_cons (q : Profile) (qs : List Profile) (p : Profile) :
    upsert (q :: qs) p = if q.id = p.id then p :: qs else q :: upsert qs p := by
  by_cases h : q.id = p.id
  · simp [upsert, List.findIdx?_cons, h]
  · have hbeq : (q.id == p.id) = false := by simp [h]
    simp only [upsert, List.findIdx?_cons, hbeq, Bool.false_eq_true, if_false, if_neg h,
      List.findIdx?_succ]
    cases hf : qs.findIdx? (fun r => r.id == p.id) with
    | none => simp
    | some i => simp [List.set]

theorem mem_upsert_self (ps : List Profile) (p : Profile) : p ∈ upsert ps p := by
  induction ps with
  | nil => simp [upsert_nil]
  | cons q qs ih =>
    rw [upsert_cons]
    by_cases h : q.id = p.id
    · simp [h]
    · simp only [if_neg h]
      exact List.mem_cons_of_mem q ih

theorem save_profile_fst (ps : List Profile) (p : Profile)
    (persist : List Profile → Except String Unit) :
    (save_profile ps p persist).1 = upsert ps p := by
  unfold save_profile
  cases h : persist (upsert ps p) <;> simp [h]

theorem delete_profile_fst (ps : List Profile) (i : String)
    (persist : List Profile → Except String Unit) :
    (delete_profile ps i persist).1 = retainOthers ps i := by
  unfold delete_profile
  cases h : persist (retainOthers ps i) <;> simp [h]

/-! ## Claim theorems -/

/-- C2: for every store state and every id matching no stored Profile,
`apply_profile` fails with the not-found error and spawns no external process
(empty effect trace), whatever the display/audio apply steps would do.  The
handler only reads the locked collection and never touches the backing file,
so collection and file are unchanged. -/
theorem apply_profile_not_found (profiles : List Profile) (profile_id : String)
    (applyDisplay : List DisplayInfo → Except String Unit × List Effect)
    (applyAudio : AudioSettings → Except String Unit × List Effect)
    (h : ∀ q ∈ profiles, q.id ≠ profile_id) :
    apply_profile profiles profile_id applyDisplay applyAudio =
      (.error "프로필을 찾을 수 없습니다.", []) := by
  have hnone : profiles.find? (fun p => p.id == profile_id) = none := by
    rw [List.find?_eq_none]
    intro x hx
    simp [h x hx]
  simp [apply_profile, hnone]

theorem apply_profile_not_found_witness :
    apply_profile [pEx] "missing" (fun _ => (.ok (), [])) (fun _ => (.ok (), [])) =
      (.error "프로필을 찾을 수 없습니다.", []) :=
  apply_profile_not_found [pEx] "missing" _ _ (by decide)

/-- C3: on Windows `apply_audio_settings` succeeds for every input, even when
both nircmd and the PowerShell fallback fail or cannot be spawned; on macOS,
when an output device is specified and the helper fails (spawn error or
unsuccessful exit), the call returns an error. -/
theorem audio_apply_error_policy_asymmetry :
    (∀ (a : AudioSettings) (nircmd powershell : SpawnResult),
      (apply_audio_settings_windows a nircmd powershell).1 = .ok ()) ∧
    (∀ (a : AudioSettings) (d : String) (sas : SpawnResult),
      a.output_device = some d →
      (∀ o, sas = .ok o → o.status_success = false) →
      ∃ msg, (apply_audio_settings_macos a sas).1 = .error msg) := by
  constructor
  · intro a nircmd powershell
    unfold apply_audio_settings_windows
    cases a.output_device with
    | none => rfl
    | some d =>
      cases nircmd with
      | error e => rfl
      | ok o =>
        by_cases hs : o.status_success
        · simp [hs]
        · cases powershell with
          | error e => simp [hs]
          | ok o₂ => simp [hs]
  · intro a d sas hd hfail
    unfold apply_audio_settings_macos
    rw [hd]
    cases sas with
    | error e =>
      exact ⟨_, rfl⟩
    | ok o =>
      have : o.status_success = false := hfail o rfl
      simp [this]

theorem audio_apply_error_policy_asymmetry_witness :
    (apply_audio_settings_windows aEx (.error "nircmd missing") (.error "powershell missing")).1
        = .ok () ∧
    ∃ msg, (apply_audio_settings_macos aEx (.error "SwitchAudioSource missing")).1
        = .error msg :=
  ⟨audio_apply_error_policy_asymmetry.1 aEx (.error "nircmd missing") (.error "powershell missing"),
   audio_apply_error_policy_asymmetry.2 aEx "Speakers" (.error "SwitchAudioSource missing") rfl
     (fun _ h => Except.noConfusion h)⟩

/-- C8: `save_profile` is not atomic with respect to persistence failure: it
mutates the in-memory collection before writing, so when the
serialize-and-write step fails the handler returns the error while the
in-memory collection already holds the upserted profile. -/
theorem save_profile_not_atomic (profiles : List Profile) (p : Profile)
    (persist : List Profile → Except String Unit) (e : String)
    (h : persist (upsert profiles p) = .error e) :
    (save_profile profiles p persist).2 = .error e ∧
    (save_profile profiles p persist).1 = upsert profiles p ∧
    p ∈ (save_profile profiles p persist).1 := by
  refine ⟨?_, save_profile_fst profiles p persist, ?_⟩
  · unfold save_profile
    simp [h]
  · rw [save_profile_fst]
    exact mem_upsert_self profiles p

theorem save_profile_not_atomic_witness :
    (save_profile [] pEx (fun _ => .error "disk full")).2 = .error "disk full" ∧
    (save_profile [] pEx (fun _ => .error "disk full")).1 = upsert [] pEx ∧
    pEx ∈ (save_profile [] pEx (fun _ => .error "disk full")).1 :=
  save_profile_not_atomic [] pEx (fun _ => .error "disk full") "disk full" rfl

/-- C6: deleting an id that matches no stored Profile leaves the collection
unchanged and (when the persistence step succeeds, which is the only failure
mode the handler has — there is no not-found branch) returns success; in
general `delete_profile` removes every record whose id matches, not just
one. -/
theorem delete_profile_missing_id (profiles : List Profile) (profile_id : String)
    (persist : List Profile → Except String Unit)
    (h : ∀ q ∈ profiles, q.id ≠ profile_id) :
    (delete_profile profiles profile_id persist).1 = profiles ∧
    (persist profiles = .ok () → (delete_profile profiles profile_id persist).2 = .ok ()) ∧
    (∀ (qs : List Profile) (j : String) (pf : List Profile → Except String Unit),
      ∀ q ∈ (delete_profile qs j pf).1, q.id ≠ j) := by
  have hretain : retainOthers profiles profile_id = profiles := by
    unfold retainOthers
    rw [List.filter_eq_self]
    intro q hq
    simpa using h q hq
  refine ⟨?_, ?_, ?_⟩
  · rw [delete_profile_fst, hretain]
  · intro hok
    simp [delete_profile, hretain, hok]
  · intro qs j pf q hq
    rw [delete_profile_fst] at hq
    unfold retainOthers at hq
    have := List.of_mem_filter hq
    simpa using this

theorem delete_profile_missing_id_witness :
    (delete_profile [pEx] "zzz" (fun _ => .ok ())).1 = [pEx] ∧
    (delete_profile [pEx] "zzz" (fun _ => .ok ())).2 = .ok () := by
  have h := delete_profile_missing_id [pEx] "zzz" (fun _ => .ok ()) (by decide)
  exact ⟨h.1, h.2.1 rfl⟩

/-- C10: `delete_profile` does not touch non-matching records: the surviving
collection is a sublist of the original (so every survivor keeps its field
values and the survivors keep their relative order), and every record whose id
differs from the deleted id survives. -/
theorem delete_profile_frame (profiles : List Profile) (profile_id : String)
    (persist : List Profile → Except String Unit) :
    List.Sublist (delete_profile profiles profile_id persist).1 profiles ∧
    ∀ q ∈ profiles, q.id ≠ profile_id →
      q ∈ (delete_profile profiles profile_id persist).1 := by
  rw [delete_profile_fst]
  constructor
  · exact List.filter_sublist profiles
  · intro q hq hne
    unfold retainOthers
    rw [List.mem_filter]
    exact ⟨hq, by simpa using hne⟩

theorem delete_profile_frame_witness :
    pEx ∈ (delete_profile [pEx, pOther] "b" (fun _ => .ok ())).1 :=
  (delete_profile_frame [pEx, pOther] "b" (fun _ => .ok ())).2 pEx (by decide) (by decide)

/-- C1: the upsert done by `save_profile`: when some record has the new
profile's id, the first such record is replaced in place and the length is
unchanged; otherwise the profile is appended and the length grows by one. -/
theorem save_profile_upsert_spec (ps : List Profile) (p : Profile) :
    ((∃ q ∈ ps, q.id = p.id) →
      ∃ i, ∃ h : i < ps.length,
        (ps.get ⟨i, h⟩).id = p.id ∧
        (∀ j (hj : j < i), (ps.get ⟨j, Nat.lt_trans hj h⟩).id ≠ p.id) ∧
        upsert ps p = ps.set i p ∧ (upsert ps p).length = ps.length) ∧
    ((∀ q ∈ ps, q.id ≠ p.id) →
      upsert ps p = ps ++ [p] ∧ (upsert ps p).length = ps.length + 1) := by
  constructor
  · rintro ⟨q, hq, hid⟩
    obtain ⟨i, hfind⟩ : ∃ i, ps.findIdx? (fun r => r.id == p.id) = some i :=
      ⟨_, List.findIdx?_eq_some_of_exists ⟨q, hq, by simp [hid]⟩⟩
    have hget := hfind
    rw [List.findIdx?_eq_some_iff_getElem] at hget
    obtain ⟨h, hpi, hbefore⟩ := hget
    refine ⟨i, h, by simpa using hpi, ?_, ?_, ?_⟩
    · intro j hj
      have := hbefore j hj
      simpa using this
    · unfold upsert
      rw [hfind]
    · unfold upsert
      rw [hfind]
      simp
  · intro h
    have hnone : ps.findIdx? (fun r => r.id == p.id) = none := by
      rw [List.findIdx?_eq_none_iff]
      intro x hx
      simp [h x hx]
    unfold upsert
    rw [hnone]
    simp

theorem save_profile_upsert_spec_witness :
    (upsert [pEx] pEx2).length = 1 ∧ upsert [pEx] pOther = [pEx] ++ [pOther] := by
  constructor
  · obtain ⟨i, h, _, _, _, hlen⟩ :=
      (save_profile_upsert_spec [pEx] pEx2).1 ⟨pEx, by simp, rfl⟩
    simpa using hlen
  · exact ((save_profile_upsert_spec [pEx] pOther).2 (by decide)).1

/-- C5: upserting the same unchanged profile twice yields the same collection
as upserting it once. -/
theorem save_profile_idempotent (ps : List Profile) (p : Profile)
    (persist : List Profile → Except String Unit) :
    (save_profile (save_profile ps p persist).1 p persist).1 =
      (save_profile ps p persist).1 := by
  rw [save_profile_fst, save_profile_fst]
  induction ps with
  | nil =>
    rw [upsert_nil, upsert_cons]
    simp
  | cons q qs ih =>
    rw [upsert_cons]
    by_cases h : q.id = p.id
    · rw [if_pos h, upsert_cons, if_pos rfl]
    · rw [if_neg h, upsert_cons, if_neg h, ih]

theorem mem_map_id_upsert {x : String} (ps : List Profile) (p : Profile) :
    x ∈ (upsert ps p).map Profile.id → x ∈ ps.map Profile.id ∨ x = p.id := by
  induction ps with
  | nil =>
    rw [upsert_nil]
    simp
  | cons q qs ih =>
    rw [upsert_cons]
    by_cases h : q.id = p.id
    · rw [if_pos h]
      intro hx
      rw [List.map_cons, List.mem_cons] at hx
      rcases hx with rfl | hx
      · exact Or.inr rfl
      · exact Or.inl (by rw [List.map_cons, List.mem_cons]; exact Or.inr hx)
    · rw [if_neg h]
      intro hx
      rw [List.map_cons, List.mem_cons] at hx
      rcases hx with rfl | hx
      · exact Or.inl (by rw [List.map_cons, List.mem_cons]; exact Or.inl rfl)
      · rcases ih hx with h1 | h1
        · exact Or.inl (by rw [List.map_cons, List.mem_cons]; exact Or.inr h1)
        · exact Or.inr h1

theorem nodup_map_id_upsert (ps : List Profile) (p : Profile)
    (h : (ps.map Profile.id).Nodup) : ((upsert ps p).map Profile.id).Nodup := by
  induction ps with
  | nil =>
    rw [upsert_nil]
    simp
  | cons q qs ih =>
    rw [List.map_cons, List.nodup_cons] at h
    obtain ⟨hq, hqs⟩ := h
    rw [upsert_cons]
    by_cases hid : q.id = p.id
    · rw [if_pos hid, List.map_cons, List.nodup_cons]
      exact ⟨hid ▸ hq, hqs⟩
    · rw [if_neg hid, List.map_cons, List.nodup_cons]
      refine ⟨?_, ih hqs⟩
      intro hmem
      rcases mem_map_id_upsert qs p hmem with h1 | h1
      · exact hq h1
      · exact hid h1

/-- C9: when the stored profiles have pairwise-distinct ids, the collection
after `save_profile` (any profile) and after `delete_profile` (any id) again
has pairwise-distinct ids. -/
theorem store_ops_preserve_distinct_ids (ps : List Profile) (p : Profile)
    (i : String) (persist : List Profile → Except String Unit)
    (h : (ps.map Profile.id).Nodup) :
    (((save_profile ps p persist).1).map Profile.id).Nodup ∧
    (((delete_profile ps i persist).1).map Profile.id).Nodup := by
  constructor
  · rw [save_profile_fst]
    exact nodup_map_id_upsert ps p h
  · rw [delete_profile_fst]
    exact List.Nodup.sublist (List.Sublist.map Profile.id (List.filter_sublist ps)) h

theorem store_ops_preserve_distinct_ids_witness :
    ((((save_profile [pEx, pOther] pEx2 (fun _ => .ok ())).1).map Profile.id).Nodup) ∧
    ((((delete_profile [pEx, pOther] "b" (fun _ => .ok ())).1).map Profile.id).Nodup) :=
  store_ops_preserve_distinct_ids [pEx, pOther] pEx2 "b" (fun _ => .ok ()) (by decide)

theorem collectDevices_eq (lines : List String) (acc : List AudioDevice) :
    collectDevices acc lines =
      acc ++ (lines.filter (fun l => !(rustIsEmpty (rustTrim l)))).map deviceOfLine := by
  induction lines generalizing acc with
  | nil => simp [collectDevices]
  | cons l ls ih =>
    rw [collectDevices, List.foldl_cons]
    by_cases h : rustIsEmpty (rustTrim l)
    · rw [if_pos h]
      rw [show List.foldl _ acc ls = collectDevices acc ls from rfl, ih]
      simp [h]
    · rw [if_neg h]
      rw [show List.foldl _ (acc ++ [deviceOfLine l]) ls =
            collectDevices (acc ++ [deviceOfLine l]) ls from rfl, ih]
      simp [h]

/-- C7: on macOS, audio enumeration maps each non-blank stdout line to one
device whose id and name are both the trimmed line, not marked default, of
type output; the synthetic default input device is always the last element;
a spawn failure falls back to one synthetic default output device; and the
function never returns an error. -/
theorem get_audio_devices_macos_spec :
    (∀ lines, get_audio_devices_macos (.ok lines) =
      .ok ((lines.filter (fun l => !(rustIsEmpty (rustTrim l)))).map
            (fun l => { id := rustTrim l, name := rustTrim l, is_default := false,
                        device_type := "output" })
          ++ [defaultInputDevice])) ∧
    (∀ e, get_audio_devices_macos (.error e) =
      .ok ([fallbackOutputDevice] ++ [defaultInputDevice])) ∧
    (∀ sas, ∃ devices, get_audio_devices_macos sas = .ok devices ∧
      devices.getLast? = some defaultInputDevice) := by
  refine ⟨?_, ?_, ?_⟩
  · intro lines
    rw [get_audio_devices_macos]
    rw [collectDevices_eq]
    rfl
  · intro e
    rfl
  · intro sas
    cases sas with
    | ok lines =>
      exact ⟨_, rfl, List.getLast?_concat _⟩
    | error e =>
      exact ⟨_, rfl, List.getLast?_concat _⟩

theorem jsonAsU32_u32ToJson (n : Nat) : jsonAsU32 (u32ToJson n) = some n := by
  simp [jsonAsU32, u32ToJson, Rat.den_natCast, Rat.num_natCast]

theorem jsonAsI32_i32ToJson (i : Int) : jsonAsI32 (i32ToJson i) = some i := by
  simp [jsonAsI32, i32ToJson, Rat.den_intCast, Rat.num_intCast]

theorem jsonAsOptStr_optStrToJson (o : Option String) :
    jsonAsOptStr (optStrToJson o) = some o := by
  cases o <;> rfl

theorem displayInfoFromJson_toJson (d : DisplayInfo) :
    displayInfoFromJson (displayInfoToJson d) = some d := by
  simp [displayInfoFromJson, displayInfoToJson, getField, List.lookup,
    jsonAsU32_u32ToJson, jsonAsI32_i32ToJson, jsonAsStr, jsonAsBool, jsonAsF64,
    Option.bind]

theorem audioSettingsFromJson_toJson (a : AudioSettings) :
    audioSettingsFromJson (audioSettingsToJson a) = some a := by
  simp [audioSettingsFromJson, audioSettingsToJson, getField, List.lookup,
    jsonAsU32_u32ToJson, jsonAsOptStr_optStrToJson, Option.bind]

theorem mapM_displayInfoFromJson (ds : List DisplayInfo) :
    (ds.map displayInfoToJson).mapM displayInfoFromJson = some ds := by
  induction ds with
  | nil => rfl
  | cons d ds ih =>
    rw [List.map_cons, List.mapM_cons, displayInfoFromJson_toJson, ih]
    rfl

theorem profileFromJson_toJson (p : Profile) :
    profileFromJson (profileToJson p) = some p := by
  simp [profileFromJson, profileToJson, getField, List.lookup, jsonAsStr,
    mapM_displayInfoFromJson, audioSettingsFromJson_toJson, Option.bind]
  rw [show List.mapM.loop displayInfoFromJson (List.map displayInfoToJson p.displays) []
        = (List.map displayInfoToJson p.displays).mapM displayInfoFromJson from rfl,
    mapM_displayInfoFromJson]

theorem profilesFromJson_toJson (ps : List Profile) :
    profilesFromJson (profilesToJson ps) = some ps := by
  rw [profilesToJson, profilesFromJson]
  induction ps with
  | nil => rfl
  | cons p ps ih =>
    rw [List.map_cons, List.mapM_cons, profileFromJson_toJson, ih]
    rfl

/-- C4: serializing a profile collection (the document `save_profiles`
writes) and parsing it back with `load_profiles` returns exactly the
collection that was written. -/
theorem profiles_roundtrip (profiles : List Profile) :
    load_profiles (some (profilesToJson profiles)) = .ok profiles := by
  rw [load_profiles, profilesFromJson_toJson]
